import Mathlib

/-!
Verification of the FlowGauge core (DSCP dialer, multi-WAN speedtest runner,
cron scheduler) against its natural-language specification.

The Go sources are shallowly embedded: pure helpers become Lean functions,
methods whose outcome depends on external collaborators (the OS socket layer,
the speedtest-go client, the cron library) become functions of an explicit
environment record capturing the collaborator's responses, and the scheduler's
mutex-guarded state becomes a state type with one transition per method
(operations are serialized by the mutex, so a sequential interleaving model is
faithful).  Go errors are `Option String` / `Except String`; Go `int` is `Int`
with explicit 64-bit wrap-around where shifts occur.
-/

set_option autoImplicit false
set_option linter.unusedVariables false

namespace FlowGauge

/-! ### Shared string constants

String literals from the Go sources, named so they can be reused in
statements. -/

def emptyStr : String := ""

/-! ### DSCP dialer (internal/speedtest/dscp.go, dscp_unix.go)

`wrap64` is two's-complement wrap-around of Go's 64-bit `int`, used to model
the `<<` shift faithfully on the whole domain (for DSCP values in [0,63] it is
the identity on `dscp * 4`). -/

def wrap64 (x : Int) : Int := (x + 2 ^ 63) % 2 ^ 64 - 2 ^ 63

/-- Go `DSCPToTOS`: `return dscp << 2` on a 64-bit `int`. -/
def DSCPToTOS (dscp : Int) : Int := wrap64 (dscp * 2 ^ 2)

/-- Go `TOSToDSCP`: `return tos >> 2`; Go `>>` on a signed int is an
arithmetic shift, that is floor division by 4. -/
def TOSToDSCP (tos : Int) : Int := Int.fdiv tos (2 ^ 2)

/-- Go `controlFunc` line `tos := d.DSCP << 2`: the TOS byte the control
function passes to `SetsockoptInt`. -/
def controlFuncTOS (dscp : Int) : Int := wrap64 (dscp * 2 ^ 2)

def msgRawConnPrefix : String := "failed to access raw connection: "

def msgSetDSCPPrefixA : String := "failed to set DSCP (TOS="

def msgSetDSCPPrefixB : String := "): "

/-- Environment for one `DSCPDialer.DialContext` call: the outcomes of the
external calls it makes.  `parseOk` is whether `net.ParseIP` accepts the
dialer's source IP (consulted only when the source IP is non-empty);
`rawConnErr` is the error of `syscall.RawConn.Control` itself; `setsockoptErr`
is the error of `syscall.SetsockoptInt` (this is the call that fails on a
platform without per-socket QoS marking); `transportErr` is the underlying
connect failure of `net.Dialer`. -/
structure DialEnv where
  parseOk : Bool
  rawConnErr : Option String
  setsockoptErr : Option String
  transportErr : Option String
deriving DecidableEq

/-- Go `DSCPDialer.controlFunc` (dscp_unix.go): runs the closure via
`c.Control`; if `c.Control` itself errs it returns that error wrapped, and if
`SetsockoptInt` failed inside the closure it returns the DSCP error wrapped.
The `network` string only selects the IPv4/IPv6 socket-option family and does
not change the returned error shape, so it is carried but unused here. -/
def controlFunc (dscp : Int) (network : String) (rawConnErr setsockoptErr : Option String) :
    Option String :=
  match rawConnErr with
  | some e => some (msgRawConnPrefix ++ e)
  | none =>
    match setsockoptErr with
    | some e =>
      some (msgSetDSCPPrefixA ++ toString (controlFuncTOS dscp) ++ msgSetDSCPPrefixB ++ e)
    | none => none

def msgInvalidSourceIPPrefix : String := "invalid source IP: "

/-- Go `DSCPDialer.DialContext` (dscp.go): validates the source IP when set,
installs `controlFunc` as the dialer's `Control` hook when `DSCP > 0`, and
dials.  `net.Dialer` runs the `Control` hook after socket creation and aborts
the dial with the hook's error if it returns one; otherwise the dial outcome
is the transport's.  Returns `some errorMessage` when the dial fails, `none`
when a connection is returned. -/
def DialContext (dscp : Int) (sourceIP network : String) (env : DialEnv) : Option String :=
  if sourceIP ≠ emptyStr ∧ env.parseOk = false then
    some (msgInvalidSourceIPPrefix ++ sourceIP)
  else
    match (if 0 < dscp then controlFunc dscp network env.rawConnErr env.setsockoptErr
           else none) with
    | some e => some e
    | none => env.transportErr

/-! ### Scheduler (internal/scheduler) -/

/-- Go `config.SchedulerConfig`. -/
structure SchedulerConfig where
  Enabled : Bool
  Schedule : String
deriving DecidableEq

/-- Go `Scheduler` struct state.  `running` and `jobID` are the struct's own
fields.  `cronStarted` records whether `cron.Start()` has been called (the
cron object's internal state), and `inFlight` counts sweep goroutines that
have been launched and not yet finished — observable program state needed to
express the at-most-one-sweep claims.  All methods run under `s.mu`, so a
sequential transition model is faithful. -/
structure Scheduler where
  config : SchedulerConfig
  running : Bool
  jobID : Nat
  cronStarted : Bool
  inFlight : Nat
deriving DecidableEq

/-- Go `NewScheduler`: fresh scheduler, `running` false, no job registered. -/
def newScheduler (cfg : SchedulerConfig) : Scheduler :=
  { config := cfg, running := false, jobID := 0, cronStarted := false, inFlight := 0 }

def msgAlreadyRunning : String := "scheduler already running"

def msgAddCronFailA : String := "failed to add cron job: "

def msgAddCronFailB : String := " (schedule: "

def msgAddCronFailC : String := ")"

/-- Go `Scheduler.Start`: errs when already running; returns nil untouched
when the config disables the scheduler; otherwise registers the job with cron
(`parseErr` is `cron.AddFunc`'s schedule-parse outcome, an external
collaborator), starts cron and flips `running`.  Cron entry ids start at 1, so
the first registered job gets `jobID = 1`. -/
def Scheduler.Start (parseErr : Option String) (s : Scheduler) : Except String Scheduler :=
  if s.running then Except.error msgAlreadyRunning
  else if s.config.Enabled = false then Except.ok s
  else
    match parseErr with
    | some e =>
      Except.error (msgAddCronFailA ++ e ++ msgAddCronFailB ++ s.config.Schedule ++ msgAddCronFailC)
    | none => Except.ok { s with jobID := 1, cronStarted := true, running := true }

/-- Go `Scheduler.IsRunning`. -/
def Scheduler.IsRunning (s : Scheduler) : Bool := s.running

/-- Go `Scheduler.TriggerNow`: when a job is configured (`jobID ≠ 0`, and the
cron entry's `Job` is the registered one, hence non-nil) it unconditionally
spawns `go entry.Job.Run()` — one more sweep in flight.  There is no check of
whether a sweep is already running. -/
def Scheduler.TriggerNow (s : Scheduler) : Scheduler :=
  if s.jobID = 0 then s
  else { s with inFlight := s.inFlight + 1 }

/-- Timer fire of the cron library: once `cron.Start()` has run, each schedule
tick invokes the registered job in a fresh goroutine.  The job chain built in
`NewScheduler` is `cron.Recover` only (panic recovery), not
`cron.SkipIfStillRunning`, so a fire is never skipped on account of a sweep
already being in flight. -/
def timerFire (s : Scheduler) : Scheduler :=
  if s.cronStarted then { s with inFlight := s.inFlight + 1 } else s

/-- Completion of one sweep goroutine. -/
def sweepFinished (s : Scheduler) : Scheduler := { s with inFlight := s.inFlight - 1 }

/-- Iterated `Scheduler.Start`: models calling `Start()` `n` times in a row,
stopping at the first error. -/
def startN (parseErr : Option String) : Nat → Scheduler → Except String Scheduler
  | 0, s => Except.ok s
  | Nat.succ n, s =>
    match Scheduler.Start parseErr s with
    | Except.ok s2 => startN parseErr n s2
    | Except.error e => Except.error e

/-! Concrete scheduler states used by witnesses and counterexamples. -/

def hourlySchedule : String := "@hourly"

def cfgOn : SchedulerConfig := { Enabled := true, Schedule := hourlySchedule }

/-- State reached by a successful `Start` on an enabled config (see
`C1_two_triggers_run_two_sweeps` for the reachability proof). -/
def startedSched : Scheduler :=
  { config := cfgOn, running := true, jobID := 1, cronStarted := true, inFlight := 0 }

/-! ### Speedtest runner (internal/speedtest: runner, multiwan, result) -/

/-- Go `WANConnection`. -/
structure WANConnection where
  Name : String
  SourceIP : String
  DSCP : Int
  Enabled : Bool
deriving DecidableEq

/-- Server fields of speedtest-go's `Server` that `Runner.Run` copies into the
result. -/
structure Server where
  Name : String
  Country : String
  Host : String
  ID : String
deriving DecidableEq

/-- Go `Result` (result.go).  Numeric measurement fields are rationals (the Go
float64 values are only ever copied from the measurement client, never
computed on, so exact arithmetic is a faithful carrier); `Timestamp` is a
wall-clock tick. -/
structure Result where
  ConnectionName : String := emptyStr
  SourceIP : String := emptyStr
  DSCP : Int := 0
  ServerID : Int := 0
  ServerName : String := emptyStr
  ServerCountry : String := emptyStr
  ServerHost : String := emptyStr
  LatencyMs : Rat := 0
  JitterMs : Rat := 0
  DownloadMbps : Rat := 0
  UploadMbps : Rat := 0
  PacketLossPct : Rat := 0
  Timestamp : Nat := 0
  Duration : Rat := 0
  Error : String := emptyStr
deriving DecidableEq

/-- Go `Result.IsError`. -/
def Result.IsError (r : Result) : Bool := r.Error ≠ emptyStr

/-- Environment for one `Runner.Run` invocation: the responses of the
external collaborators it consults, in call order.  `parseOk` is whether
`net.ParseIP` accepts the connection's source IP (consulted by
`NewDSCPDialer` when the source IP is non-empty); `fetchErr` is
`client.FetchServers`; `findErr` and `targets` are `serverList.FindServer`;
`pingErr`/`latencyMs`/`jitterMs` are `server.PingTest` and the latency and
jitter it leaves on the server; `dlErr`/`dlMbps` and `ulErr`/`ulMbps` are the
download and upload tests and the rates they leave; `elapsedSec` is
`time.Since(startTime).Seconds()` at the end of a completed run. -/
structure RunEnv where
  parseOk : Bool
  fetchErr : Option String
  findErr : Option String
  targets : List Server
  pingErr : Option String
  latencyMs : Rat
  jitterMs : Rat
  dlErr : Option String
  dlMbps : Rat
  ulErr : Option String
  ulMbps : Rat
  elapsedSec : Rat
deriving DecidableEq

def msgDSCPRangeA : String := "DSCP value must be between 0 and 63, got "

def msgInvalidSrcAddrPrefix : String := "invalid source IP address: "

/-- Go `NewDSCPDialer` (dscp.go) error outcome: rejects a DSCP outside
[0,63], then a non-empty source IP that `net.ParseIP` rejects; `none` means
the dialer is constructed. -/
def newDSCPDialerErr (dscp : Int) (sourceIP : String) (parseOk : Bool) : Option String :=
  if dscp < 0 ∨ 63 < dscp then some (msgDSCPRangeA ++ toString dscp)
  else if sourceIP ≠ emptyStr ∧ parseOk = false then
    some (msgInvalidSrcAddrPrefix ++ sourceIP)
  else none

/-- Go `parseServerID`: `fmt.Sscanf(id, "%d", &serverID)` with the scan error
ignored — reads a leading decimal number, 0 when there is none. -/
def parseServerID (id : String) : Int :=
  Int.ofNat (((id.takeWhile Char.isDigit).toNat?).getD 0)

def msgDialerPrefix : String := "failed to create DSCP dialer: "

def msgFetchPrefix : String := "failed to fetch servers: "

def msgFindPrefix : String := "failed to find server: "

def msgNoServers : String := "no speedtest servers available"

/-- Go `Runner.Run` (runner file): builds the result with connection identity
and start timestamp, then walks dialer construction, server fetch, server
find, and the empty-target check, each failure filling `Error` and returning
the result together with the error; on the measurement path it copies the
first target's identity, copies latency and jitter only when the ping test
succeeded, always copies the download and upload rates (their test errors are
only logged), sets the elapsed duration, and returns no error. -/
def Run (conn : WANConnection) (env : RunEnv) (startTime : Nat) : Result × Option String :=
  let result : Result :=
    { ConnectionName := conn.Name, SourceIP := conn.SourceIP, DSCP := conn.DSCP,
      Timestamp := startTime }
  match newDSCPDialerErr conn.DSCP conn.SourceIP env.parseOk with
  | some e => ({ result with Error := msgDialerPrefix ++ e }, some e)
  | none =>
    match env.fetchErr with
    | some e => ({ result with Error := msgFetchPrefix ++ e }, some e)
    | none =>
      match env.findErr with
      | some e => ({ result with Error := msgFindPrefix ++ e }, some e)
      | none =>
        match env.targets with
        | [] => ({ result with Error := msgNoServers }, some msgNoServers)
        | server :: _ =>
          let result := { result with ServerName := server.Name }
          let result := { result with ServerCountry := server.Country }
          let result := { result with ServerHost := server.Host }
          let result := { result with ServerID := parseServerID server.ID }
          let result :=
            match env.pingErr with
            | some _ => result
            | none => { result with LatencyMs := env.latencyMs, JitterMs := env.jitterMs }
          let result := { result with DownloadMbps := env.dlMbps }
          let result := { result with UploadMbps := env.ulMbps }
          ({ result with Duration := env.elapsedSec }, none)

/-- Per-path absorption in `runSequential`/`runParallel` (multiwan file):
when `Runner.Run` returns an error the loop replaces its result with a fresh
error result carrying only the connection identity and the error text. -/
def absorbedOutcome (conn : WANConnection) (env : RunEnv) (startTime : Nat) : Result :=
  match Run conn env startTime with
  | (r, none) => r
  | (_, some e) =>
    { ConnectionName := conn.Name, SourceIP := conn.SourceIP, DSCP := conn.DSCP,
      Error := e }

def ctxCanceledMsg : String := "context canceled"

/-- Go `MultiWANRunner.runSequential` from loop position `i`: before each
connection the loop polls `ctx.Done()` (`cancelled i` is whether cancellation
has been observed by the i-th poll) and, once cancellation is observed,
returns the results collected so far with `ctx.Err()`; otherwise it runs the
probe, absorbs any error into an error result, and continues.  `envs i` and
`startTimes i` are the collaborator responses and wall-clock start of the
i-th probe. -/
def runSequentialFrom (cancelled : Nat → Bool) (envs : Nat → RunEnv)
    (startTimes : Nat → Nat) : Nat → List WANConnection → List Result × Option String
  | _, [] => ([], none)
  | i, conn :: rest =>
    if cancelled i then ([], some ctxCanceledMsg)
    else
      let outcome := absorbedOutcome conn (envs i) (startTimes i)
      let next := runSequentialFrom cancelled envs startTimes (i + 1) rest
      (outcome :: next.1, next.2)

/-- Go `MultiWANRunner.runSequential`. -/
def runSequential (cancelled : Nat → Bool) (envs : Nat → RunEnv)
    (startTimes : Nat → Nat) (conns : List WANConnection) : List Result × Option String :=
  runSequentialFrom cancelled envs startTimes 0 conns

/-- One worker per connection of `runParallel`, collected here in launch
order (the Go results channel collects in completion order; every property
proved below is insensitive to that order). -/
def runParallelFrom (envs : Nat → RunEnv) (startTimes : Nat → Nat) :
    Nat → List WANConnection → List Result
  | _, [] => []
  | i, conn :: rest =>
    absorbedOutcome conn (envs i) (startTimes i) :: runParallelFrom envs startTimes (i + 1) rest

/-- Go `MultiWANRunner.runParallel`: spawns one goroutine per connection with
no `ctx.Done()` poll anywhere (and `Runner.Run` never reads its context
parameter), waits for all of them, and returns the collected results with a
nil error.  The `cancelled` parameter is the context's cancellation signal;
the body never consults it, mirroring the source. -/
def runParallel (cancelled : Nat → Bool) (envs : Nat → RunEnv)
    (startTimes : Nat → Nat) (conns : List WANConnection) : List Result × Option String :=
  (runParallelFrom envs startTimes 0 conns, none)

/-- Go `MultiWANRunner.RunAll`: dispatches on the parallel flag. -/
def RunAll (parallel : Bool) (cancelled : Nat → Bool) (envs : Nat → RunEnv)
    (startTimes : Nat → Nat) (conns : List WANConnection) : List Result × Option String :=
  if parallel then runParallel cancelled envs startTimes conns
  else runSequential cancelled envs startTimes conns

def msgNotFoundA : String := "connection \x22"

def msgNotFoundB : String := "\x22 not found"

/-- Go `MultiWANRunner.RunConnection`: finds the first configured connection
with the given name and returns `Runner.Run`'s pair unchanged — including its
error; a missing name yields a not-found error and no result. -/
def RunConnection (conns : List WANConnection) (name : String) (env : RunEnv)
    (startTime : Nat) : Option Result × Option String :=
  match conns.find? (fun c => c.Name == name) with
  | some c => (some (Run c env startTime).1, (Run c env startTime).2)
  | none => (none, some (msgNotFoundA ++ name ++ msgNotFoundB))

/-! ### Helper lemmas for the runner -/

/-- Appending to a non-empty string stays non-empty (used for the error
messages `Runner.Run` builds by prefixing). -/
theorem append_ne_emptyStr (a b : String) (h : a ≠ emptyStr) : a ++ b ≠ emptyStr := by
  intro hc
  apply h
  have hl := congrArg String.length hc
  rw [String.length_append] at hl
  have h0 : emptyStr.length = 0 := rfl
  rw [h0] at hl
  have ha : a.length = 0 := by omega
  cases a with
  | mk la =>
    cases la with
    | nil => decide
    | cons c cs => simp at ha

/-- Every branch of `Runner.Run` carries the connection name set at entry. -/
theorem Run_ConnectionName (conn : WANConnection) (env : RunEnv) (st : Nat) :
    (Run conn env st).1.ConnectionName = conn.Name := by
  unfold Run
  repeat' split
  all_goals rfl

/-- Both branches of the orchestrator's per-path absorption keep the
connection name. -/
theorem absorbedOutcome_ConnectionName (conn : WANConnection) (env : RunEnv) (st : Nat) :
    (absorbedOutcome conn env st).ConnectionName = conn.Name := by
  unfold absorbedOutcome
  split
  · case _ r heq =>
    have h := Run_ConnectionName conn env st
    rw [heq] at h
    exact h
  · rfl

/-- Launch-order worker collection: one result per connection. -/
theorem runParallelFrom_length (envs : Nat → RunEnv) (startTimes : Nat → Nat) :
    ∀ (conns : List WANConnection) (i : Nat),
      (runParallelFrom envs startTimes i conns).length = conns.length := by
  intro conns
  induction conns with
  | nil => intro i; rfl
  | cons c rest ih =>
    intro i
    simp only [runParallelFrom, List.length_cons, ih (i + 1)]

/-- Launch-order worker collection: the result names are the connection names
in order. -/
theorem runParallelFrom_names (envs : Nat → RunEnv) (startTimes : Nat → Nat) :
    ∀ (conns : List WANConnection) (i : Nat),
      (runParallelFrom envs startTimes i conns).map Result.ConnectionName =
        conns.map WANConnection.Name := by
  intro conns
  induction conns with
  | nil => intro i; rfl
  | cons c rest ih =>
    intro i
    simp only [runParallelFrom, List.map_cons, ih (i + 1),
      absorbedOutcome_ConnectionName]

/-- With no cancellation, the sequential sweep is the launch-order collection
paired with a nil error. -/
theorem runSequentialFrom_no_cancel (cancelled : Nat → Bool) (envs : Nat → RunEnv)
    (startTimes : Nat → Nat) (h : ∀ i, cancelled i = false) :
    ∀ (conns : List WANConnection) (i : Nat),
      runSequentialFrom cancelled envs startTimes i conns =
        (runParallelFrom envs startTimes i conns, none) := by
  intro conns
  induction conns with
  | nil => intro i; rfl
  | cons c rest ih =>
    intro i
    simp only [runSequentialFrom, runParallelFrom, h i, ih (i + 1)]
    simp

/-! ### Concrete connections, servers and environments for witnesses and
counterexamples -/

def wan1 : String := "wan1"

def wan2 : String := "wan2"

def wan3 : String := "wan3"

def connOK : WANConnection := { Name := wan1, SourceIP := emptyStr, DSCP := 0, Enabled := true }

def connB : WANConnection := { Name := wan2, SourceIP := emptyStr, DSCP := 46, Enabled := true }

def connC : WANConnection := { Name := wan3, SourceIP := emptyStr, DSCP := 0, Enabled := true }

def serverNameStr : String := "Example Server"

def serverCountryStr : String := "DE"

def serverHostStr : String := "speed.example.net:8080"

def serverIDStr : String := "1234"

def srvA : Server :=
  { Name := serverNameStr, Country := serverCountryStr, Host := serverHostStr,
    ID := serverIDStr }

def pingFailMsg : String := "ping timeout"

def dlFailMsg : String := "download failed"

def ulFailMsg : String := "upload failed"

/-- Environment where discovery succeeds but every sub-measurement fails and
the measured rates are zero: `Runner.Run` completes with no error yet leaves
every numeric field at zero. -/
def envAllZero : RunEnv :=
  { parseOk := true, fetchErr := none, findErr := none, targets := [srvA],
    pingErr := some pingFailMsg, latencyMs := 0, jitterMs := 0,
    dlErr := some dlFailMsg, dlMbps := 0, ulErr := some ulFailMsg, ulMbps := 0,
    elapsedSec := 30 }

def netDownMsg : String := "dial tcp: network is unreachable"

/-- Environment where fetching the server list fails: `Runner.Run` takes the
early-return path. -/
def envFetchFail : RunEnv :=
  { parseOk := true, fetchErr := some netDownMsg, findErr := none, targets := [],
    pingErr := none, latencyMs := 0, jitterMs := 0, dlErr := none, dlMbps := 0,
    ulErr := none, ulMbps := 0, elapsedSec := 5 }

/-- The result `Runner.Run` produces on `envFetchFail` with start tick 0. -/
def rFetchFail : Result := { ConnectionName := wan1, Error := msgFetchPrefix ++ netDownMsg }

/-! ## Claims about the DSCP dialer and the scheduler -/

def opNotSupported : String := "operation not supported"

/-- A platform/kernel that rejects the QoS socket option: `SetsockoptInt`
fails, everything else (IP parsing, raw-conn access, transport connect) is
healthy. -/
def envMarkUnsupported : DialEnv :=
  { parseOk := true, rawConnErr := none, setsockoptErr := some opNotSupported,
    transportErr := none }

def tcp4Net : String := "tcp4"

/-- C2 counterexample: with QoS class 46, no source IP, and a platform whose
set-socket-option call fails (while the transport itself would connect fine),
`DialContext` fails the dial — the claim says the connection attempt must
proceed without marking. -/
theorem C2_counterexample_dial_fails :
    envMarkUnsupported.setsockoptErr.isSome = true ∧
    envMarkUnsupported.transportErr = none ∧
    (DialContext 46 emptyStr tcp4Net envMarkUnsupported).isSome = true := by
  decide

/-- C2 amended: on a platform where the set-socket-option call fails (and the
raw connection is accessible), every dial with a positive QoS class fails:
`controlFunc` returns the marking error and `net.Dialer` aborts the dial with
it.  The marking is never skipped. -/
theorem C2_marking_failure_fails_dial (dscp : Int) (sourceIP network : String)
    (env : DialEnv) (hd : 0 < dscp) (hr : env.rawConnErr = none)
    (hs : env.setsockoptErr.isSome = true) :
    (DialContext dscp sourceIP network env).isSome = true := by
  cases he : env.setsockoptErr with
  | none => rw [he] at hs; simp at hs
  | some e =>
    simp only [DialContext, controlFunc, hr, he, if_pos hd]
    split <;> simp

/-- C2 witness: the amended theorem applied at QoS class 46 on the concrete
unsupported-marking environment. -/
theorem C2_marking_failure_witness :
    (DialContext 46 emptyStr tcp4Net envMarkUnsupported).isSome = true :=
  C2_marking_failure_fails_dial 46 emptyStr tcp4Net envMarkUnsupported
    (by decide) (by decide) (by decide)

/-- C7: for every QoS class `d` in (0,63], the TOS byte the control function
applies to the socket is `d << 2` (here `d * 4`; no 64-bit wrap-around occurs
in this range), `DSCPToTOS` computes the same byte, and decoding it back with
`TOSToDSCP` yields `d` again. -/
theorem C7_dscp_tos_roundtrip (d : Int) (h1 : 0 < d) (h2 : d ≤ 63) :
    controlFuncTOS d = d * 4 ∧ DSCPToTOS d = d * 4 ∧ TOSToDSCP (DSCPToTOS d) = d := by
  have hw : wrap64 (d * 2 ^ 2) = d * 4 := by
    unfold wrap64
    omega
  refine ⟨hw, hw, ?_⟩
  unfold TOSToDSCP DSCPToTOS
  rw [hw, mul_comm]
  exact Int.mul_fdiv_cancel_left d (by norm_num)

/-- C7 witness: the roundtrip at the spec's concrete class 46, whose TOS byte
is 184. -/
theorem C7_dscp_tos_roundtrip_witness :
    controlFuncTOS 46 = 46 * 4 ∧ DSCPToTOS 46 = 46 * 4 ∧
    TOSToDSCP (DSCPToTOS 46) = 46 :=
  C7_dscp_tos_roundtrip 46 (by decide) (by decide)

/-- C1 counterexample: `startedSched` is reachable by one successful `Start`;
after one `TriggerNow` a sweep is in flight, and two further `TriggerNow`
calls while it is still running bring the in-flight count to 3 — both calls
launched a sweep, where the claim demands exactly one.  A timer fire in the
same situation also launches a sweep instead of being skipped. -/
theorem C1_two_triggers_run_two_sweeps :
    Scheduler.Start none (newScheduler cfgOn) = Except.ok startedSched ∧
    (Scheduler.TriggerNow startedSched).inFlight = 1 ∧
    (Scheduler.TriggerNow (Scheduler.TriggerNow
      (Scheduler.TriggerNow startedSched))).inFlight = 3 ∧
    (timerFire (Scheduler.TriggerNow startedSched)).inFlight = 2 :=
  ⟨rfl, rfl, rfl, rfl⟩

/-- C1 amended: the scheduler has no sweep mutual exclusion.  Whenever a job
is configured, `TriggerNow` launches one sweep unconditionally (so two calls
in rapid succession while a sweep is still running launch two more sweeps),
and once cron is started every timer fire launches one sweep unconditionally
(the job chain only recovers panics; it does not skip overlapping runs). -/
theorem C1_trigger_always_launches (s : Scheduler) :
    (s.jobID ≠ 0 →
      (Scheduler.TriggerNow s).inFlight = s.inFlight + 1 ∧
      (Scheduler.TriggerNow (Scheduler.TriggerNow s)).inFlight = s.inFlight + 2) ∧
    (s.cronStarted = true → (timerFire s).inFlight = s.inFlight + 1) := by
  constructor
  · intro h
    constructor <;> simp [Scheduler.TriggerNow, h]
  · intro h
    simp [timerFire, h]

/-- C1 witness: the amended theorem applied at the reachable started state. -/
theorem C1_trigger_always_launches_witness :
    ((Scheduler.TriggerNow startedSched).inFlight = startedSched.inFlight + 1 ∧
      (Scheduler.TriggerNow (Scheduler.TriggerNow startedSched)).inFlight =
        startedSched.inFlight + 2) ∧
    (timerFire startedSched).inFlight = startedSched.inFlight + 1 :=
  ⟨(C1_trigger_always_launches startedSched).1 (by decide),
   (C1_trigger_always_launches startedSched).2 (by decide)⟩

/-- C10: with the scheduler disabled in configuration, any number of `Start`
calls returns nil with the state untouched — no cron job is registered
(`jobID` stays 0), `running` never flips, so no call ever hits the
already-running error and `IsRunning` stays false. -/
theorem C10_disabled_start_noop (sch : String) (parseErr : Option String) (n : Nat) :
    startN parseErr n (newScheduler { Enabled := false, Schedule := sch }) =
      Except.ok (newScheduler { Enabled := false, Schedule := sch }) ∧
    Scheduler.IsRunning (newScheduler { Enabled := false, Schedule := sch }) = false ∧
    (newScheduler { Enabled := false, Schedule := sch }).jobID = 0 := by
  refine ⟨?_, rfl, rfl⟩
  induction n with
  | zero => rfl
  | succ n ih => simpa [startN, Scheduler.Start, newScheduler] using ih

/-! ## Claims about the runner and the orchestrator -/

/-- C3 counterexample: a run in which servers are discovered but the ping,
download and upload tests all fail returns an Outcome with an empty failure
description and every numeric measurement field zero — the claim says such an
Outcome is never returned. -/
theorem C3_counterexample_silent_zero_outcome :
    (Run connOK envAllZero 5).2 = none ∧
    (Run connOK envAllZero 5).1.Error = emptyStr ∧
    (Run connOK envAllZero 5).1.LatencyMs = 0 ∧
    (Run connOK envAllZero 5).1.JitterMs = 0 ∧
    (Run connOK envAllZero 5).1.DownloadMbps = 0 ∧
    (Run connOK envAllZero 5).1.UploadMbps = 0 ∧
    (Run connOK envAllZero 5).1.PacketLossPct = 0 := by
  decide

/-- C3 amended: one direction of the invariant holds — every Outcome with a
non-empty failure description has all numeric measurement fields zero, and
the run also reported the error.  The converse fails (see the
counterexample): an Outcome can have an empty failure description together
with all-zero measurement fields, because failed sub-measurements only
degrade fields to zero. -/
theorem C3_failure_outcomes_zeroed (conn : WANConnection) (env : RunEnv) (st : Nat)
    (r : Result) (e : Option String) (hR : Run conn env st = (r, e))
    (h : r.Error ≠ emptyStr) :
    r.LatencyMs = 0 ∧ r.JitterMs = 0 ∧ r.DownloadMbps = 0 ∧ r.UploadMbps = 0 ∧
    r.PacketLossPct = 0 ∧ e.isSome = true := by
  simp only [Run] at hR
  repeat' split at hR
  all_goals injection hR with h1 h2
  all_goals subst h1
  all_goals subst h2
  all_goals simp_all

/-- C3 witness: the amended theorem applied at the concrete
fetch-failure run. -/
theorem C3_failure_outcomes_zeroed_witness :
    rFetchFail.LatencyMs = 0 ∧ rFetchFail.JitterMs = 0 ∧ rFetchFail.DownloadMbps = 0 ∧
    rFetchFail.UploadMbps = 0 ∧ rFetchFail.PacketLossPct = 0 ∧
    (some netDownMsg).isSome = true :=
  C3_failure_outcomes_zeroed connOK envFetchFail 0 rFetchFail (some netDownMsg)
    (by decide) (by decide)

/-- C4 counterexample: on a server-fetch failure, `Runner.Run` returns the
error to its caller, and `RunConnection` propagates that same error — the
claim says the error never leaves either. -/
theorem C4_counterexample_run_returns_error :
    (Run connOK envFetchFail 0).2 = some netDownMsg ∧
    (RunConnection [connOK] wan1 envFetchFail 0).2 = some netDownMsg := by
  decide

/-- C4 amended: `Runner.Run` does return its error to the caller (always
mirrored in the Outcome's failure description), and `RunConnection` forwards
it; the absorption happens one level up — `RunAll` in serial mode (absent
cancellation) converts every per-path error into an error Outcome and
returns a nil error. -/
theorem C4_errors_absorbed_at_runAll :
    (∀ (conn : WANConnection) (env : RunEnv) (st : Nat) (r : Result) (e : String),
        Run conn env st = (r, some e) → r.Error ≠ emptyStr) ∧
    (∀ (cancelled : Nat → Bool) (envs : Nat → RunEnv) (startTimes : Nat → Nat)
        (conns : List WANConnection), (∀ i, cancelled i = false) →
        (RunAll false cancelled envs startTimes conns).2 = none) := by
  constructor
  · intro conn env st r e hR
    simp only [Run] at hR
    repeat' split at hR
    all_goals injection hR with h1 h2
    all_goals first
      | exact Option.noConfusion h2
      | (subst h1
         first
           | exact append_ne_emptyStr _ _ (by decide)
           | exact (by decide : msgNoServers ≠ emptyStr))
  · intro cancelled envs startTimes conns h
    show (runSequentialFrom cancelled envs startTimes 0 conns).2 = none
    rw [runSequentialFrom_no_cancel cancelled envs startTimes h conns 0]

/-- C4 witness: part one applied at the concrete fetch-failure run, part two
applied to a one-connection sweep with no cancellation. -/
theorem C4_errors_absorbed_witness :
    rFetchFail.Error ≠ emptyStr ∧
    (RunAll false (fun _ => false) (fun _ => envAllZero) (fun _ => 0) [connOK]).2 = none :=
  ⟨C4_errors_absorbed_at_runAll.1 connOK envFetchFail 0 rFetchFail netDownMsg (by decide),
   C4_errors_absorbed_at_runAll.2 (fun _ => false) (fun _ => envAllZero) (fun _ => 0)
     [connOK] (fun i => rfl)⟩

/-- C5 counterexample: a run that fails at server fetch returns an Outcome
with the start timestamp but with `Duration` still zero even though wall
time elapsed (`elapsedSec = 5`) — the claim says the elapsed duration is
populated regardless of where the attempt fails. -/
theorem C5_counterexample_duration_unset :
    (Run connOK envFetchFail 7).1.Timestamp = 7 ∧
    envFetchFail.elapsedSec = 5 ∧
    (Run connOK envFetchFail 7).1.Duration = 0 ∧
    (Run connOK envFetchFail 7).1.Error ≠ emptyStr := by
  decide

/-- C5 amended: the Outcome always carries the wall-clock start timestamp,
but the elapsed duration is populated only on runs that reach the end of the
measurement phase (no early-return failure); early failures leave it zero. -/
theorem C5_timestamp_always_duration_on_success (conn : WANConnection) (env : RunEnv)
    (st : Nat) (r : Result) (e : Option String) (hR : Run conn env st = (r, e)) :
    r.Timestamp = st ∧ (e = none → r.Duration = env.elapsedSec) := by
  simp only [Run] at hR
  repeat' split at hR
  all_goals injection hR with h1 h2
  all_goals subst h1
  all_goals subst h2
  all_goals refine ⟨rfl, ?_⟩
  all_goals intro he
  all_goals first
    | exact Option.noConfusion he
    | rfl

/-- C5 witness: the amended theorem applied at the concrete fetch-failure
run with start tick 0. -/
theorem C5_timestamp_witness :
    rFetchFail.Timestamp = 0 ∧
    (some netDownMsg = none → rFetchFail.Duration = envFetchFail.elapsedSec) :=
  C5_timestamp_always_duration_on_success connOK envFetchFail 0 rFetchFail
    (some netDownMsg) (by decide)

/-- C6: with a never-cancelled context, `RunAll` in serial mode returns a nil
error and exactly one Outcome per connection, in iteration order — the list
of outcome names equals the list of connection names, so there are no
duplicates and no omissions. -/
theorem C6_serial_one_outcome_per_path (cancelled : Nat → Bool) (envs : Nat → RunEnv)
    (startTimes : Nat → Nat) (conns : List WANConnection)
    (h : ∀ i, cancelled i = false) :
    (RunAll false cancelled envs startTimes conns).2 = none ∧
    (RunAll false cancelled envs startTimes conns).1.length = conns.length ∧
    (RunAll false cancelled envs startTimes conns).1.map Result.ConnectionName =
      conns.map WANConnection.Name := by
  have hs : RunAll false cancelled envs startTimes conns =
      (runParallelFrom envs startTimes 0 conns, none) :=
    runSequentialFrom_no_cancel cancelled envs startTimes h conns 0
  rw [hs]
  exact ⟨rfl, runParallelFrom_length envs startTimes conns 0,
    runParallelFrom_names envs startTimes conns 0⟩

/-- C6 witness: a three-connection serial sweep with no cancellation. -/
theorem C6_serial_witness :
    (RunAll false (fun _ => false) (fun _ => envAllZero) (fun _ => 0)
      [connOK, connB, connC]).2 = none ∧
    (RunAll false (fun _ => false) (fun _ => envAllZero) (fun _ => 0)
      [connOK, connB, connC]).1.length = ([connOK, connB, connC] : List WANConnection).length ∧
    (RunAll false (fun _ => false) (fun _ => envAllZero) (fun _ => 0)
      [connOK, connB, connC]).1.map Result.ConnectionName =
      ([connOK, connB, connC] : List WANConnection).map WANConnection.Name :=
  C6_serial_one_outcome_per_path (fun _ => false) (fun _ => envAllZero) (fun _ => 0)
    [connOK, connB, connC] (fun i => rfl)

/-- C8: in serial mode, when cancellation is not yet observed at the first
poll but is observed at the second, `RunAll` runs exactly the first
connection's probe, does not start the second, and returns the single
collected Outcome (the fully assembled per-path outcome, success or
absorbed failure) together with the propagated cancellation error. -/
theorem C8_serial_stops_at_cancellation (cancelled : Nat → Bool) (envs : Nat → RunEnv)
    (startTimes : Nat → Nat) (c0 c1 : WANConnection) (rest : List WANConnection)
    (h0 : cancelled 0 = false) (h1 : cancelled 1 = true) :
    RunAll false cancelled envs startTimes (c0 :: c1 :: rest) =
      ([absorbedOutcome c0 (envs 0) (startTimes 0)], some ctxCanceledMsg) ∧
    (absorbedOutcome c0 (envs 0) (startTimes 0)).ConnectionName = c0.Name := by
  refine ⟨?_, absorbedOutcome_ConnectionName c0 (envs 0) (startTimes 0)⟩
  show runSequentialFrom cancelled envs startTimes 0 (c0 :: c1 :: rest) = _
  simp only [runSequentialFrom, h0, h1]
  simp

/-- C8 witness: three connections, cancellation observed from the second poll
onward. -/
theorem C8_serial_stops_witness :
    RunAll false (fun i => i != 0) (fun _ => envAllZero) (fun _ => 0)
      [connOK, connB, connC] =
      ([absorbedOutcome connOK envAllZero 0], some ctxCanceledMsg) ∧
    (absorbedOutcome connOK envAllZero 0).ConnectionName = connOK.Name :=
  C8_serial_stops_at_cancellation (fun i => i != 0) (fun _ => envAllZero) (fun _ => 0)
    connOK connB [connC] rfl rfl

/-- C9: in parallel mode, `RunAll` returns a nil error and exactly one
Outcome per configured connection, and its output does not depend on the
cancellation signal at all — the context is never polled before or after
launching the workers, even if it was cancelled before the call. -/
theorem C9_parallel_ignores_cancellation (cA cB : Nat → Bool) (envs : Nat → RunEnv)
    (startTimes : Nat → Nat) (conns : List WANConnection) :
    (RunAll true cA envs startTimes conns).2 = none ∧
    (RunAll true cA envs startTimes conns).1.length = conns.length ∧
    (RunAll true cA envs startTimes conns).1.map Result.ConnectionName =
      conns.map WANConnection.Name ∧
    RunAll true cA envs startTimes conns = RunAll true cB envs startTimes conns :=
  ⟨rfl, runParallelFrom_length envs startTimes conns 0,
   runParallelFrom_names envs startTimes conns 0, rfl⟩

end FlowGauge
